import Mathlib

/-!
Verification development for a browser 3D model viewer
(files src/index.js, src/model-manager.js, src/unnamed/part_000).

The development shallowly embeds the code that the properties below are
about:

* the camera-framing routines `ModelManager.frameObject`
  (src/model-manager.js:70-84) and the top-level `frameObject` of
  src/index.js:93-107 (identical in src/unnamed/part_000:101-115),
  over real-valued vectors (the JavaScript numbers are idealised as reals);
* the material post-processing and environment-map stage of
  `ModelManager.load` (src/model-manager.js:41-67) over an explicit
  scene-graph tree;
* the promise-settlement behaviour of the primary load with an abort
  signal (src/model-manager.js:27-39), as a fold over the ordered list of
  callback events;
* the `setVariant` state update of src/unnamed/part_000:76-99
  (src/index.js:70-91 is the same function over a smaller variant table).

External collaborators (the rendering library, loaders, DOM) enter only
through their documented contracts, noted at each definition.
-/

namespace Viewer

/-! ## Vectors and boxes (THREE.Vector3 / THREE.Box3, the operations used) -/

/-- A 3-component vector; components are idealised as real numbers. -/
structure Vec3 where
  x : ℝ
  y : ℝ
  z : ℝ

/-- Componentwise sum, as `Vector3.add`. -/
def Vec3.add (v w : Vec3) : Vec3 :=
  ⟨v.x + w.x, v.y + w.y, v.z + w.z⟩

/-- Componentwise difference, as `Vector3.sub` / `subVectors`. -/
def Vec3.sub (v w : Vec3) : Vec3 :=
  ⟨v.x - w.x, v.y - w.y, v.z - w.z⟩

/-- Scaling, as `Vector3.multiplyScalar`. -/
def Vec3.multiplyScalar (v : Vec3) (s : ℝ) : Vec3 :=
  ⟨v.x * s, v.y * s, v.z * s⟩

/-- `Vector3.divideScalar` is implemented as `multiplyScalar (1 / s)`. -/
noncomputable def Vec3.divideScalar (v : Vec3) (s : ℝ) : Vec3 :=
  v.multiplyScalar (1 / s)

/-- `Vector3.length`: the Euclidean norm `sqrt (x*x + y*y + z*z)`. -/
noncomputable def Vec3.length (v : Vec3) : ℝ :=
  Real.sqrt (v.x * v.x + v.y * v.y + v.z * v.z)

open Classical in
/-- `Vector3.normalize` divides by `this.length() || 1`: a zero length is
replaced by 1 (the JavaScript or-expression on a falsy 0). -/
noncomputable def Vec3.normalize (v : Vec3) : Vec3 :=
  v.divideScalar (if v.length = 0 then 1 else v.length)

/-- An axis-aligned box, as THREE.Box3: its two corners. Boxes reaching the
code under proof come from `Box3.setFromObject` on a non-empty object (an
external library computation), so the non-empty reading of the accessors is
the one embedded. -/
structure Box3 where
  min : Vec3
  max : Vec3

/-- `Box3.getSize` for a non-empty box: `max - min`. -/
def Box3.getSize (b : Box3) : Vec3 :=
  b.max.sub b.min

/-- `Box3.getCenter` for a non-empty box: `(min + max) * 0.5`. -/
def Box3.getCenter (b : Box3) : Vec3 :=
  (b.min.add b.max).multiplyScalar 0.5

/-- The camera state that the framing code reads and writes:
`fov` (degrees), `position`, and the `near`/`far` clip planes.
`updateProjectionMatrix` recomputes a derived matrix from these fields and
changes none of them, so it is not part of the state. -/
structure Camera where
  fov : ℝ
  position : Vec3
  near : ℝ
  far : ℝ

/-- The orbit-controls state the framing code touches: the `target` point.
`controls.update()` re-reads camera and target to refresh internal spherical
coordinates; with no pending user input it leaves both unchanged. -/
structure Controls where
  target : Vec3

namespace ModelManager

/-- The default of the `padding` parameter of
`ModelManager.frameObject` (src/model-manager.js:70). -/
noncomputable def defaultPadding : ℝ := 1.25

/-- The framing distance computed at src/model-manager.js:74-76:
`maxDim / (2 * tan(fovDeg * PI / 180 / 2)) * padding`, where `maxDim` is
`Math.max(size.x, size.y, size.z)`. -/
noncomputable def frameDist (maxDim fovDeg padding : ℝ) : ℝ :=
  (maxDim / (2 * Real.tan (fovDeg * Real.pi / 180 / 2))) * padding

/-- `ModelManager.frameObject` (src/model-manager.js:70-84). The box of the
object is the externally computed `Box3.setFromObject(object)`, passed here
as `box`; the function reads nothing else of the object and writes only the
camera and controls fields below. -/
noncomputable def frameObject (box : Box3) (camera : Camera) (controls : Controls)
    (padding : ℝ) : Camera × Controls :=
  let size := box.getSize
  let center := box.getCenter
  let maxDim := max (max size.x size.y) size.z
  let dist := frameDist maxDim camera.fov padding
  let dir := (Vec3.mk 1 0.6 1).normalize
  ({ camera with
      position := center.add (dir.multiplyScalar dist)
      near := dist / 100
      far := dist * 100 },
   { controls with target := center })

end ModelManager

namespace IndexJs

/-- The top-level `frameObject` of src/index.js:93-107 (the same lines are
src/unnamed/part_000:101-115). Unlike `ModelManager.frameObject` it takes the
Euclidean length of the whole size vector, has no padding parameter (a fixed
1.3 factor multiplies the fit distance in the position only), and bases the
clip planes on that length with `far = size * 10`. -/
noncomputable def frameObject (box : Box3) (cam : Camera) (controls : Controls) :
    Camera × Controls :=
  let size := box.getSize.length
  let center := box.getCenter
  let fitDist := size / (2 * Real.tan (cam.fov * Real.pi / 360))
  let dir := (Vec3.mk 1 0.6 1).normalize
  ({ cam with
      position := center.add (dir.multiplyScalar (fitDist * 1.3))
      near := size / 100
      far := size * 10 },
   { controls with target := center })

end IndexJs

/-- Modelled from the spec: the distance formula as section 4.2 of the spec
words it, for comparison with the code. `size` is the largest axis extent
`max(sx, sy, sz)` and `d = (size / (2 * tan(fov/2))) * padding` with `fov`
in degrees converted to radians. -/
noncomputable def specFrameDist (sx sy sz fovDeg padding : ℝ) : ℝ :=
  (max (max sx sy) sz / (2 * Real.tan (fovDeg * Real.pi / 180 / 2))) * padding

/-! ## Scene graph and the post-processing of `ModelManager.load`
(src/model-manager.js:41-67) -/

/-- The texture color spaces the code mentions; `srgb` is
`THREE.SRGBColorSpace`, the other two stand for any other value of the
`colorSpace` property. -/
inductive ColorSpace where
  | srgb
  | linearSRGB
  | noColor
deriving DecidableEq

/-- A texture as the post-processing sees it: its `isTexture` marker and its
`colorSpace` property. -/
structure TextureT where
  isTexture : Bool
  colorSpace : ColorSpace
deriving DecidableEq

/-- A material as the code reads and writes it: the base-color `map`
(if the material has one), whether the material has an `envMap` property at
all (the JavaScript `"envMap" in o.material` test), and the current value of that property. Environment textures are identified by numbers. -/
structure Material where
  map : Option TextureT
  hasEnvMapProp : Bool
  envMap : Option Nat
deriving DecidableEq

mutual
/-- A scene-graph node (THREE.Object3D): its `isMesh` marker, the two shadow
flags, an optional material, and its children. `traverse` visits the node and
then, recursively, every child. -/
inductive Obj where
  | mk (isMesh castShadow receiveShadow : Bool) (material : Option Material)
      (children : ObjList)
/-- The children array of a node. -/
inductive ObjList where
  | nil
  | cons (head : Obj) (tail : ObjList)
end

def Obj.isMesh : Obj → Bool
  | .mk m _ _ _ _ => m

def Obj.castShadow : Obj → Bool
  | .mk _ c _ _ _ => c

def Obj.receiveShadow : Obj → Bool
  | .mk _ _ r _ _ => r

def Obj.material : Obj → Option Material
  | .mk _ _ _ mat _ => mat

/-- The update of src/model-manager.js:48 on one material: if its `map` is a
texture, the `colorSpace` of that map becomes `THREE.SRGBColorSpace`; any other
material is untouched. -/
def fixMaterialMap (mat : Material) : Material :=
  match mat.map with
  | some t => if t.isTexture then { mat with map := some { t with colorSpace := .srgb } } else mat
  | none => mat

mutual
/-- The traversal of src/model-manager.js:43-50: on every mesh node set
`castShadow` and `receiveShadow` to `true` and fix the color space of the
base-color map of the material; non-mesh nodes are untouched; all children are
visited either way. -/
def Obj.postProcess : Obj → Obj
  | .mk m cs rs mat ch =>
      if m then .mk m true true (mat.map fixMaterialMap) ch.postProcess
      else .mk m cs rs mat ch.postProcess
def ObjList.postProcess : ObjList → ObjList
  | .nil => .nil
  | .cons h t => .cons h.postProcess t.postProcess
end

mutual
/-- The traversal of src/model-manager.js:59: on every mesh node whose
material has an `envMap` property, set that property to the generated
environment texture `env`. -/
def Obj.applyEnv (env : Nat) : Obj → Obj
  | .mk m cs rs mat ch =>
      if m then
        .mk m cs rs
          (mat.map fun mt => if mt.hasEnvMapProp then { mt with envMap := some env } else mt)
          (ch.applyEnv env)
      else .mk m cs rs mat (ch.applyEnv env)
def ObjList.applyEnv (env : Nat) : ObjList → ObjList
  | .nil => .nil
  | .cons h t => .cons (h.applyEnv env) (t.applyEnv env)
end

mutual
/-- All mesh nodes of a subtree, in traversal order. -/
def Obj.meshes (o : Obj) : List Obj :=
  match o with
  | .mk m _ _ _ ch => (if m then [o] else []) ++ ch.meshes
def ObjList.meshes : ObjList → List Obj
  | .nil => []
  | .cons h t => h.meshes ++ t.meshes
end

mutual
/-- The `envMap` slots of every material of a subtree, in traversal order. -/
def Obj.envMaps : Obj → List (Option Nat)
  | .mk _ _ _ mat ch =>
      (match mat with
       | some mt => [mt.envMap]
       | none => []) ++ ch.envMaps
def ObjList.envMaps : ObjList → List (Option Nat)
  | .nil => []
  | .cons h t => h.envMaps ++ t.envMaps
end

/-- Whether a map texture satisfies the color contract: either it is not a
texture (so line 48 skips it) or its color space is sRGB. -/
def textureColorOK (t : TextureT) : Bool :=
  !t.isTexture || t.colorSpace == ColorSpace.srgb

/-- The per-mesh outcome the post-processing is meant to establish: both
shadow flags set, and a base-color texture (when the material carries one)
in the sRGB color space. -/
def meshShadowColorOK (o : Obj) : Bool :=
  o.castShadow && o.receiveShadow &&
    (match o.material with
     | some mt =>
        (match mt.map with
         | some t => textureColorOK t
         | none => true)
     | none => true)

/-! ## The load pipeline of `ModelManager.load` (src/model-manager.js:27-68) -/

/-- Why the promise returned by `load` can reject:
`abortError` is the `DOMException("Aborted", "AbortError")` of line 38;
`loadFailed` is the failure callback of the backend loader of line 36;
`envLoadFailed` is a rejection of the HDR loader promise of lines 54-57,
which the surrounding `await` re-throws out of `load` unchanged;
`missingScene` stands for the TypeError thrown at line 43 when the parsed
file has neither `scene` nor a first element of `scenes`. -/
inductive RejectReason where
  | abortError
  | loadFailed (msg : String)
  | envLoadFailed (msg : String)
  | missingScene
deriving DecidableEq

/-- What the backend hands to the success callback: the parsed result with
its optional default `scene`, the `scenes` array and optional animation
clips (clips are identified by numbers). -/
structure GLTFResult where
  scene : Option Obj
  scenes : List Obj
  animations : Option (List Nat)

/-- The value `load` resolves with (src/model-manager.js:67), restricted to
the fields produced by the code under proof: the chosen root and the
animation list. `bbox`, `size` and `center` of line 64-66 are computed by
the external Box3 API from `root` and carry no further information. -/
structure LoadedAsset where
  root : Obj
  animations : List Nat

/-- The part of `ModelManager.load` that runs after the primary promise
resolved with `gltf` (src/model-manager.js:41-67). `pmrem` is the external
`PMREMGenerator.fromEquirectangular(...).texture` step on a decoded HDR
texture. `envReq` is `none` when no `envMapHDR` option was given; otherwise
it carries the settlement of the HDR loader promise of lines 54-57. A
rejected HDR promise makes the plain `await` of line 54 throw, so the whole
`load` rejects with that error: there is no try/catch around it. -/
def loadFromScene (pmrem : Nat → Nat) (gltf : GLTFResult)
    (envReq : Option (Except String Nat)) : Except RejectReason LoadedAsset :=
  match gltf.scene.orElse (fun _ => gltf.scenes.head?) with
  | none => .error .missingScene
  | some root0 =>
      let root := root0.postProcess
      match envReq with
      | none => .ok { root := root, animations := gltf.animations.getD [] }
      | some (.error e) => .error (.envLoadFailed e)
      | some (.ok tex) =>
          .ok { root := root.applyEnv (pmrem tex),
                animations := gltf.animations.getD [] }

/-! ## Settlement of the primary load promise (src/model-manager.js:31-39) -/

/-- The callbacks that can settle the promise of src/model-manager.js:31-39,
in the order the event loop delivers them after `load` was invoked:
the backend success callback of line 34, the backend failure callback of
line 36, and the delivery of the `abort` event of the signal to the listener of
line 38. Loaded assets are identified by numbers here. -/
inductive LoadEvent where
  | backendResolve (asset : Nat)
  | backendError (msg : String)
  | abortFired
deriving DecidableEq

/-- A promise settles once: `pending` before any callback ran, then the
outcome of the first `resolve`/`reject` call; later calls are ignored. -/
inductive PromiseState where
  | pending
  | resolved (asset : Nat)
  | rejected (e : RejectReason)
deriving DecidableEq

/-- The settlement of the promise given the delivered callbacks in order:
the first one wins. The failure callback rejects with the error of the backend
(line 36); the abort listener rejects with the AbortError of line 38. -/
def settleFirst : List LoadEvent → PromiseState
  | [] => .pending
  | .backendResolve a :: _ => .resolved a
  | .backendError m :: _ => .rejected (.loadFailed m)
  | .abortFired :: _ => .rejected .abortError

/-- DOM AbortSignal semantics as consumed by line 38:
`addEventListener("abort", listener)` registers for the abort event, and
that event is dispatched only at the moment the signal transitions to the
aborted state. A signal that is already aborted when `load` registers the
listener therefore never delivers the event: no `abortFired` reaches the
promise. -/
def deliveredEvents (alreadyAborted : Bool) (events : List LoadEvent) : List LoadEvent :=
  if alreadyAborted then
    events.filter fun e =>
      match e with
      | .abortFired => false
      | _ => true
  else events

/-- The outcome of the primary load promise of `ModelManager.load` for a
call that passed `signal`: `alreadyAborted` is the state of that signal at
invocation time, `events` the backend/abort callbacks in delivery order. -/
def loadPromiseOutcome (alreadyAborted : Bool) (events : List LoadEvent) : PromiseState :=
  settleFirst (deliveredEvents alreadyAborted events)

/-! ## Variant selection (`setVariant`, src/unnamed/part_000:76-99;
src/index.js:70-91 is the same function over a 3-entry table) -/

/-- One entry of the VARIANTS table: its display label, asset url and
scale factor. -/
structure VariantCfg where
  label : String
  url : String
  scale : ℚ
deriving DecidableEq

/-- The VARIANTS table of src/unnamed/part_000:8-18. -/
def VARIANTS : List (String × VariantCfg) :=
  [("plus1pm", ⟨"Shelly Plus 1PM", "./assets/shelly2.glb", 1⟩),
   ("plus2pm", ⟨"Shelly Plus 2PM", "./assets/shelly.glb", 1⟩),
   ("plusi4", ⟨"Shelly Plus i4", "./assets/shelly1.glb", 1⟩),
   ("duorgbw", ⟨"Shelly Duo RGBW", "./assets/duo_rgbw.glb", 1⟩),
   ("pro1", ⟨"Shelly Pro 1", "./assets/pro1.glb", 1⟩),
   ("pro1pm", ⟨"Shelly Pro 1PM", "./assets/pro1pm.glb", 1⟩),
   ("pro2pm", ⟨"Shelly Pro 2PM", "./assets/pro2pm.glb", 1⟩),
   ("pro1dimmer", ⟨"Shelly Pro Dimmer1PM", "./assets/pro1dimmer.glb", 1⟩),
   ("pro3em", ⟨"Shelly Pro 3EM", "./assets/pro3em.glb", 1⟩)]

/-- The VARIANTS table of src/index.js:8-12. -/
def VARIANTS_INDEX : List (String × VariantCfg) :=
  [("plus1pm", ⟨"Shelly Plus 1PM", "./assets/shelly2.glb", 1⟩),
   ("plus2pm", ⟨"Shelly Plus 2PM", "./assets/shelly.glb", 1⟩),
   ("plusi4", ⟨"Shelly Plus i4", "./assets/shelly1.glb", 1⟩)]

/-- The property names every plain object literal inherits from
Object.prototype. Their values are functions (or, for the accessor
`__proto__`, the prototype object), all of which are truthy, so the
`if (!cfg) return` guard of src/unnamed/part_000:78 does not fire when the
bracket lookup falls through to one of these. -/
def objectPrototypeProps : List String :=
  ["constructor", "hasOwnProperty", "isPrototypeOf", "propertyIsEnumerable",
   "toLocaleString", "toString", "valueOf", "__defineGetter__",
   "__defineSetter__", "__lookupGetter__", "__lookupSetter__", "__proto__"]

/-- What the JavaScript bracket access `VARIANTS[name]` can produce on an
object literal: an own entry of the table, a truthy function/object
inherited from Object.prototype, or `undefined`. -/
inductive PropLookup where
  | own (cfg : VariantCfg)
  | inherited
  | absent
deriving DecidableEq

/-- The property lookup `VARIANTS[name]` with JavaScript semantics: an own
entry of the table wins; otherwise the chain falls through to the
Object.prototype properties; only then is the result `undefined`. -/
def lookupVariant (variants : List (String × VariantCfg)) (name : String) :
    PropLookup :=
  match variants.find? fun p => p.1 == name with
  | some p => .own p.2
  | none => if objectPrototypeProps.contains name then .inherited else .absent

/-- The `cache.get(name)` lookup on the insertion-ordered model cache.
Cached models are identified by numbers here. -/
def lookupCache (cache : List (String × Nat)) (name : String) : Option Nat :=
  (cache.find? fun p => p.1 == name).map fun p => p.2

/-- The mutable state `setVariant` touches: the children of the scene (model
ids; the lights, grid and background layers are separate and untouched), the
`currentModel` slot, and the model cache. The camera and controls that
`frameObject` updates on success, and the grid and status line of
part_000:97-98, live outside this record. -/
structure ViewerState where
  sceneChildren : List Nat
  currentModel : Option Nat
  cache : List (String × Nat)
deriving DecidableEq

/-- Everything observable a `setVariant` call did: the state its mutations
left behind (module-level state keeps the mutations performed before a
throw), every url handed to `loader.load` during the call (`none` stands
for the `undefined` url read off an inherited Object.prototype function,
which has no `url` property), and the rejection, if the awaited loader
promise rejected. -/
structure SetVariantOutcome where
  state : ViewerState
  loaderCalls : List (Option String)
  thrown : Option String
deriving DecidableEq

/-- The body of `setVariant` once the `if (!cfg) return` guard of line 78
did not fire: remove the current model from the scene, consult the cache
(`Map.get` reads only own entries, never a prototype), and on a miss issue
`loader.load(cfg.url, ...)` and await it. `url` is `cfg.url`: the config
url for an own entry, `undefined` (`none`) when `cfg` is an inherited
Object.prototype function. A rejected loader promise makes the plain
`await` throw out of `setVariant`, after the current-model removal already
happened and with the loader call already issued. `scene.add` moves an
already present child to the end, so it is erase-then-append;
`model.scale.setScalar` of line 90 mutates the model object itself and none
of the three state slots (and `cfg.scale` is 1 or `undefined`, so the
branch is never taken). -/
def setVariantBody (url : Option String) (name : String)
    (loadResult : Except String Nat) (st : ViewerState) : SetVariantOutcome :=
  let st1 :=
    match st.currentModel with
    | some m => { st with sceneChildren := st.sceneChildren.erase m, currentModel := none }
    | none => st
  match lookupCache st1.cache name with
  | some model =>
      { state := { st1 with
          currentModel := some model
          sceneChildren := st1.sceneChildren.erase model ++ [model] },
        loaderCalls := [], thrown := none }
  | none =>
      match loadResult with
      | .error e => { state := st1, loaderCalls := [url], thrown := some e }
      | .ok model =>
          let st2 := { st1 with cache := st1.cache ++ [(name, model)] }
          { state := { st2 with
              currentModel := some model
              sceneChildren := st2.sceneChildren.erase model ++ [model] },
            loaderCalls := [url], thrown := none }

/-- `setVariant(name)` of src/unnamed/part_000:76-99 over a variants table.
`loadResult` is the settlement of the loader promise of lines 87-89, used
only when the guard falls through and the cache misses. Only a lookup that
produces `undefined` — no own entry and no inherited Object.prototype
property — makes the guard of line 78 return early. -/
def setVariant (variants : List (String × VariantCfg)) (name : String)
    (loadResult : Except String Nat) (st : ViewerState) : SetVariantOutcome :=
  match lookupVariant variants name with
  | .absent => { state := st, loaderCalls := [], thrown := none }
  | .own cfg => setVariantBody (some cfg.url) name loadResult st
  | .inherited => setVariantBody none name loadResult st

/-! ## Concrete sample data for witnesses and counterexamples -/

/-- A box with corners (0,0,0) and (3,4,0): size (3,4,0), so its largest
axis extent is 4 while the Euclidean length of the size vector is 5. -/
def sampleBox : Box3 :=
  ⟨⟨0, 0, 0⟩, ⟨3, 4, 0⟩⟩

/-- A camera with a 90-degree vertical field of view. -/
noncomputable def sampleCamera : Camera :=
  { fov := 90, position := ⟨0, 0, 0⟩, near := 0.1, far := 1000 }

/-- A second camera with the same field of view but different prior
position and clip planes. -/
noncomputable def sampleCameraB : Camera :=
  { fov := 90, position := ⟨9, -2, 7⟩, near := 5, far := 6 }

def sampleControls : Controls :=
  { target := ⟨0, 0, 0⟩ }

def sampleControlsB : Controls :=
  { target := ⟨7, 7, 7⟩ }

/-- A material with a base-color texture not yet in the sRGB color space,
an envMap property and no environment texture assigned. -/
def sampleMaterial : Material :=
  { map := some { isTexture := true, colorSpace := .noColor },
    hasEnvMapProp := true, envMap := none }

/-- A mesh root carrying `sampleMaterial`, with one non-mesh child. -/
def sampleRoot : Obj :=
  .mk true false false (some sampleMaterial) (.cons (.mk false false false none .nil) .nil)

/-- A parsed backend result whose default scene is `sampleRoot`. -/
def sampleGLTF : GLTFResult :=
  { scene := some sampleRoot, scenes := [], animations := some [] }

/-- A viewer state with one displayed model and a warm cache. -/
def sampleViewerState : ViewerState :=
  { sceneChildren := [3], currentModel := some 3, cache := [("plus1pm", 3)] }

/-- The asset `load` resolves with on `sampleGLTF` and no environment map. -/
def sampleAsset : LoadedAsset :=
  { root := sampleRoot.postProcess, animations := [] }

/-! ## Helper lemmas -/

mutual
theorem meshes_postProcess_ok (o : Obj) :
    ((Obj.postProcess o).meshes).all meshShadowColorOK = true := by
  cases o with
  | mk m cs rs mat ch =>
    have ih := meshesList_postProcess_ok ch
    cases m with
    | false => simpa [Obj.postProcess, Obj.meshes] using ih
    | true =>
        simp only [Obj.postProcess, if_pos, Obj.meshes, List.all_append, ih,
          Bool.and_true, List.all_cons, List.all_nil]
        simp only [meshShadowColorOK, Obj.castShadow, Obj.receiveShadow, Obj.material,
          Bool.true_and]
        cases mat with
        | none => simp
        | some mt =>
            cases hmap : mt.map with
            | none => simp [fixMaterialMap, hmap]
            | some t =>
                cases ht : t.isTexture with
                | false => simp [fixMaterialMap, hmap, ht, textureColorOK]
                | true => simp [fixMaterialMap, hmap, ht, textureColorOK]
theorem meshesList_postProcess_ok (l : ObjList) :
    ((ObjList.postProcess l).meshes).all meshShadowColorOK = true := by
  cases l with
  | nil => rfl
  | cons h t =>
      have ih1 := meshes_postProcess_ok h
      have ih2 := meshesList_postProcess_ok t
      simp [ObjList.postProcess, ObjList.meshes, List.all_append, ih1, ih2]
end

mutual
theorem meshes_applyEnv_ok (env : Nat) (o : Obj) :
    ((Obj.applyEnv env o).meshes).all meshShadowColorOK =
      (o.meshes).all meshShadowColorOK := by
  cases o with
  | mk m cs rs mat ch =>
    have ih := meshesList_applyEnv_ok env ch
    cases m with
    | false => simpa [Obj.applyEnv, Obj.meshes] using ih
    | true =>
        simp only [Obj.applyEnv, if_pos, Obj.meshes, List.all_append, ih, List.all_cons,
          List.all_nil, Bool.and_true]
        simp only [meshShadowColorOK, Obj.castShadow, Obj.receiveShadow, Obj.material]
        cases mat with
        | none => simp
        | some mt => cases hm : mt.hasEnvMapProp <;> simp [hm]
theorem meshesList_applyEnv_ok (env : Nat) (l : ObjList) :
    ((ObjList.applyEnv env l).meshes).all meshShadowColorOK =
      (l.meshes).all meshShadowColorOK := by
  cases l with
  | nil => rfl
  | cons h t =>
      have ih1 := meshes_applyEnv_ok env h
      have ih2 := meshesList_applyEnv_ok env t
      simp [ObjList.applyEnv, ObjList.meshes, List.all_append, ih1, ih2]
end

mutual
theorem envMaps_postProcess (o : Obj) :
    (Obj.postProcess o).envMaps = o.envMaps := by
  cases o with
  | mk m cs rs mat ch =>
    have ih := envMapsList_postProcess ch
    cases m with
    | false => simp [Obj.postProcess, Obj.envMaps, ih]
    | true =>
        simp only [Obj.postProcess, if_pos, Obj.envMaps, ih]
        cases mat with
        | none => rfl
        | some mt =>
            cases hmap : mt.map with
            | none => simp [fixMaterialMap, hmap]
            | some t =>
                cases ht : t.isTexture <;> simp [fixMaterialMap, hmap, ht]
theorem envMapsList_postProcess (l : ObjList) :
    (ObjList.postProcess l).envMaps = l.envMaps := by
  cases l with
  | nil => rfl
  | cons h t =>
      have ih1 := envMaps_postProcess h
      have ih2 := envMapsList_postProcess t
      simp [ObjList.postProcess, ObjList.envMaps, ih1, ih2]
end

theorem settleFirst_no_abort (l : List LoadEvent)
    (h : ∀ e ∈ l, e ≠ LoadEvent.abortFired) :
    settleFirst l ≠ PromiseState.rejected RejectReason.abortError := by
  cases l with
  | nil => simp [settleFirst]
  | cons e t =>
      cases e with
      | backendResolve a => simp [settleFirst]
      | backendError m => simp [settleFirst]
      | abortFired => exact absurd rfl (h _ (by simp))

theorem alreadyAborted_never_abortError (tr : List LoadEvent) :
    loadPromiseOutcome true tr ≠ PromiseState.rejected RejectReason.abortError := by
  apply settleFirst_no_abort
  intro e he hcontra
  subst hcontra
  simp [deliveredEvents] at he

/-! ## Claim C1 -/

/-- Claim C1 counterexample: with the primary asset already resolved and
post-processed, a failed environment-map load makes the whole `load` call
reject with that failure instead of resolving with the primary asset — the
plain `await` of src/model-manager.js:54 has no try/catch around it, so the
HDR loader rejection propagates out of `load`. -/
theorem env_failure_claim_cex :
    loadFromScene id sampleGLTF (some (.error "boom")) =
      .error (.envLoadFailed "boom") ∧
    ¬ ∃ a : LoadedAsset, loadFromScene id sampleGLTF (some (.error "boom")) = .ok a := by
  refine ⟨rfl, ?_⟩
  rintro ⟨a, ha⟩
  rw [show loadFromScene id sampleGLTF (some (.error "boom")) =
      .error (.envLoadFailed "boom") from rfl] at ha
  exact Except.noConfusion ha

/-- Claim C1 (amended): when the primary load has resolved with a root scene
and the secondary environment-map load fails, the overall `load` call
rejects with that environment error (it does not resolve), and no material
of the already post-processed primary root has its envMap slot modified. -/
theorem env_failure_rejects_and_preserves_envMaps (pmrem : Nat → Nat)
    (gltf : GLTFResult) (root0 : Obj) (e : String) (h : gltf.scene = some root0) :
    loadFromScene pmrem gltf (some (.error e)) = .error (.envLoadFailed e) ∧
    (Obj.postProcess root0).envMaps = root0.envMaps := by
  constructor
  · unfold loadFromScene
    rw [h]
    rfl
  · exact envMaps_postProcess root0

/-- Witness for the amended C1 at a concrete scene and error. -/
theorem env_failure_rejects_and_preserves_envMaps_witness :
    loadFromScene id sampleGLTF (some (.error "netfail")) =
      .error (.envLoadFailed "netfail") ∧
    (Obj.postProcess sampleRoot).envMaps = sampleRoot.envMaps :=
  env_failure_rejects_and_preserves_envMaps id sampleGLTF sampleRoot "netfail" rfl

/-! ## Claim C2 -/

/-- Claim C2 counterexample: a signal that is already in the cancelled state
when `load` is invoked never delivers an abort event to the listener of
src/model-manager.js:38, so the load resolves with the backend asset instead
of failing with the Cancelled error. -/
theorem cancelled_signal_claim_cex :
    loadPromiseOutcome true [LoadEvent.backendResolve 0] = PromiseState.resolved 0 ∧
    loadPromiseOutcome true [LoadEvent.backendResolve 0] ≠
      PromiseState.rejected RejectReason.abortError := by
  exact ⟨rfl, by decide⟩

/-- Claim C2 (amended): if the signal transitions to the cancelled state
after `load` was invoked and before any backend callback, the load fails
with the AbortError (never LoadFailed, never a resolved asset); a signal
already cancelled at invocation time, however, never produces the
AbortError — the outcome is whatever the backend settles. -/
theorem cancel_before_backend_yields_abort (events : List LoadEvent)
    (h : events.head? = some LoadEvent.abortFired) :
    loadPromiseOutcome false events = PromiseState.rejected RejectReason.abortError ∧
    (∀ m, loadPromiseOutcome false events ≠
        PromiseState.rejected (RejectReason.loadFailed m)) ∧
    (∀ a, loadPromiseOutcome false events ≠ PromiseState.resolved a) ∧
    (∀ tr, loadPromiseOutcome true tr ≠ PromiseState.rejected RejectReason.abortError) := by
  have hfirst : loadPromiseOutcome false events =
      PromiseState.rejected RejectReason.abortError := by
    cases events with
    | nil => exact absurd h (by simp)
    | cons e t =>
        have he : e = LoadEvent.abortFired := by simpa using h
        subst he
        rfl
  refine ⟨hfirst, ?_, ?_, alreadyAborted_never_abortError⟩
  · intro m
    rw [hfirst]
    simp
  · intro a
    rw [hfirst]
    simp

/-- Witness for the amended C2 at a concrete event order: the abort event
fires first, the backend resolution arrives later and is discarded. -/
theorem cancel_before_backend_yields_abort_witness :
    loadPromiseOutcome false [LoadEvent.abortFired, LoadEvent.backendResolve 7] =
      PromiseState.rejected RejectReason.abortError :=
  (cancel_before_backend_yields_abort
    [LoadEvent.abortFired, LoadEvent.backendResolve 7] rfl).1

/-! ## Claim C6 -/

/-- Claim C6: every successfully resolved load has every mesh node of its
root subtree marked as shadow caster and receiver, and every mesh material
base-color texture forced into the sRGB color space
(src/model-manager.js:43-50; the envMap pass of line 59 touches neither). -/
theorem load_success_shadows_and_srgb (pmrem : Nat → Nat) (gltf : GLTFResult)
    (envReq : Option (Except String Nat)) (asset : LoadedAsset)
    (h : loadFromScene pmrem gltf envReq = .ok asset) :
    (asset.root.meshes).all meshShadowColorOK = true := by
  unfold loadFromScene at h
  split at h
  · exact Except.noConfusion h
  · rename_i root0 heq
    split at h
    · cases h
      exact meshes_postProcess_ok root0
    · exact Except.noConfusion h
    · rename_i tex
      cases h
      show (((Obj.postProcess root0).applyEnv (pmrem tex)).meshes).all meshShadowColorOK = true
      rw [meshes_applyEnv_ok]
      exact meshes_postProcess_ok root0

/-- Witness for C6 on a concrete load without environment map. -/
theorem load_success_shadows_and_srgb_witness :
    (sampleAsset.root.meshes).all meshShadowColorOK = true :=
  load_success_shadows_and_srgb id sampleGLTF none sampleAsset rfl

/-! ## Claim C10 -/

/-- Claim C10 counterexample: the name toString has no entry in the VARIANTS
table, yet `setVariant` does not return without effect on it — the bracket
lookup finds the truthy inherited `Object.prototype.toString`, so the guard
of src/unnamed/part_000:78 does not fire: the current model is removed from
the scene and the currentModel slot cleared, and a loader call with an
undefined url is issued (whose rejection then throws out of the call). -/
theorem setVariant_unknown_name_claim_cex :
    (VARIANTS.find? fun p => p.1 == "toString") = none ∧
    setVariant VARIANTS "toString" (.error "boom") sampleViewerState =
      { state := { sceneChildren := [], currentModel := none,
                   cache := [("plus1pm", 3)] },
        loaderCalls := [none], thrown := some "boom" } ∧
    setVariant VARIANTS "toString" (.error "boom") sampleViewerState ≠
      { state := sampleViewerState, loaderCalls := [], thrown := none } :=
  ⟨by decide, by decide, by decide⟩

/-- Claim C10 (amended): for a name whose bracket lookup yields `undefined`
— no own entry in the variants table and no property inherited from
Object.prototype (such as toString, constructor or valueOf) — `setVariant`
returns at src/unnamed/part_000:78 before touching anything: the scene
children, the currentModel slot and the cache are unchanged, no loader call
is issued and nothing is thrown. -/
theorem setVariant_absent_name_noop (variants : List (String × VariantCfg))
    (name : String) (loadResult : Except String Nat) (st : ViewerState)
    (h : lookupVariant variants name = PropLookup.absent) :
    setVariant variants name loadResult st =
      { state := st, loaderCalls := [], thrown := none } := by
  unfold setVariant
  rw [h]

/-- Witness for the amended C10: a name absent both from the 9-entry
VARIANTS table of src/unnamed/part_000 and from Object.prototype leaves a
concrete state untouched. -/
theorem setVariant_absent_name_noop_witness :
    setVariant VARIANTS "plus9pm" (.ok 5) sampleViewerState =
      { state := sampleViewerState, loaderCalls := [], thrown := none } :=
  setVariant_absent_name_noop VARIANTS "plus9pm" (.ok 5) sampleViewerState (by decide)

/-! ## Arithmetic helper lemmas for the framing claims -/

theorem dirLength_pos : 0 < (Vec3.mk 1 0.6 1).length := by
  have h : (0 : ℝ) < 1 * 1 + 0.6 * 0.6 + 1 * 1 := by norm_num
  simpa [Vec3.length] using Real.sqrt_pos.mpr h

theorem dir_normalize_eq :
    (Vec3.mk 1 0.6 1).normalize =
      (Vec3.mk 1 0.6 1).multiplyScalar (1 / (Vec3.mk 1 0.6 1).length) := by
  rw [Vec3.normalize, Vec3.divideScalar, if_neg (ne_of_gt dirLength_pos)]

theorem sampleSize_length : sampleBox.getSize.length = 5 := by
  show Real.sqrt (((3 : ℝ) - 0) * (3 - 0) + (4 - 0) * (4 - 0) + (0 - 0) * (0 - 0)) = 5
  rw [show ((3 : ℝ) - 0) * (3 - 0) + (4 - 0) * (4 - 0) + (0 - 0) * (0 - 0) = 5 ^ 2 by
    norm_num]
  exact Real.sqrt_sq (by norm_num)

theorem tan_half_ninety : Real.tan ((90 : ℝ) * Real.pi / 180 / 2) = 1 := by
  rw [show (90 : ℝ) * Real.pi / 180 / 2 = Real.pi / 4 by ring]
  exact Real.tan_pi_div_four

theorem tan_ninety_360 : Real.tan ((90 : ℝ) * Real.pi / 360) = 1 := by
  rw [show (90 : ℝ) * Real.pi / 360 = Real.pi / 4 by ring]
  exact Real.tan_pi_div_four

theorem specDist_sample :
    specFrameDist sampleBox.getSize.x sampleBox.getSize.y sampleBox.getSize.z
      sampleCamera.fov ModelManager.defaultPadding = 2.5 := by
  show (max (max ((3 : ℝ) - 0) (4 - 0)) (0 - 0)) /
      (2 * Real.tan ((90 : ℝ) * Real.pi / 180 / 2)) * 1.25 = 2.5
  rw [tan_half_ninety, show max (max ((3 : ℝ) - 0) (4 - 0)) (0 - 0) = 4 by norm_num]
  norm_num

theorem tanHalfFov_pos (fovDeg : ℝ) (h0 : 0 < fovDeg) (h1 : fovDeg < 180) :
    0 < Real.tan (fovDeg * Real.pi / 180 / 2) := by
  apply Real.tan_pos_of_pos_of_lt_pi_div_two
  · positivity
  · have key : fovDeg * Real.pi < 180 * Real.pi := by nlinarith [Real.pi_pos]
    linarith

/-! ## Claim C3 -/

/-- Claim C3 counterexample: the top-level frameObject of src/index.js
(cited by the claim) does not compute its distance from the largest axis
extent: on a box of size (3, 4, 0) with a 90-degree camera its camera
position differs from boxCenter plus the claimed distance
(largest extent 4, default padding 1.25) along normalize(1, 0.6, 1) —
the code uses the length 5 of the size vector and a fixed 1.3 factor. -/
theorem frame_distance_claim_cex :
    (IndexJs.frameObject sampleBox sampleCamera sampleControls).1.position ≠
      sampleBox.getCenter.add ((Vec3.mk 1 0.6 1).normalize.multiplyScalar
        (specFrameDist sampleBox.getSize.x sampleBox.getSize.y sampleBox.getSize.z
          sampleCamera.fov ModelManager.defaultPadding)) := by
  intro hEq
  have hxval : ∀ s : ℝ,
      (sampleBox.getCenter.add ((Vec3.mk 1 0.6 1).normalize.multiplyScalar s)).x =
        1.5 + 1 / (Vec3.mk 1 0.6 1).length * s := by
    intro s
    rw [dir_normalize_eq]
    show ((0 : ℝ) + 3) * 0.5 + 1 * (1 / (Vec3.mk 1 0.6 1).length) * s = _
    ring
  have hx := congrArg Vec3.x hEq
  rw [show (IndexJs.frameObject sampleBox sampleCamera sampleControls).1.position =
      sampleBox.getCenter.add ((Vec3.mk 1 0.6 1).normalize.multiplyScalar
        (sampleBox.getSize.length / (2 * Real.tan (sampleCamera.fov * Real.pi / 360)) * 1.3))
      from rfl] at hx
  rw [hxval, hxval, sampleSize_length, specDist_sample,
    show sampleCamera.fov = (90 : ℝ) from rfl, tan_ninety_360] at hx
  have hL0 : (0 : ℝ) < (Vec3.mk 1 0.6 1).length := dirLength_pos
  set L : ℝ := (Vec3.mk 1 0.6 1).length with hLdef
  have h2 : 1 / L = 0 := by linarith
  exact one_div_ne_zero (ne_of_gt hL0) h2

/-- Claim C3 (amended): `ModelManager.frameObject` computes its distance
exactly as the spec formula states — largest axis extent over twice the
tangent of half the field of view, times the padding parameter whose
default is 1.25 — while the top-level frameObject of src/index.js feeds the
Euclidean length of the whole size vector into the fit-distance formula and
scales the camera offset by a fixed 1.3 instead of a padding parameter. -/
theorem frame_distance_formulas (box : Box3) (camera : Camera)
    (controls : Controls) (padding : ℝ) :
    (ModelManager.frameObject box camera controls padding).1.position =
      box.getCenter.add ((Vec3.mk 1 0.6 1).normalize.multiplyScalar
        (specFrameDist box.getSize.x box.getSize.y box.getSize.z camera.fov padding)) ∧
    ModelManager.defaultPadding = 1.25 ∧
    (IndexJs.frameObject box camera controls).1.position =
      box.getCenter.add ((Vec3.mk 1 0.6 1).normalize.multiplyScalar
        (box.getSize.length / (2 * Real.tan (camera.fov * Real.pi / 360)) * 1.3)) :=
  ⟨rfl, rfl, rfl⟩

/-! ## Claim C4 -/

/-- Claim C4 counterexample: the frameObject of src/index.js (cited by the
claim) does not set the clip planes to d / 100 and d * 100 for the claimed
distance d: on a box of size (3, 4, 0) with a 90-degree camera it sets
near = 0.05 and far = 50 (from the size-vector length 5), while the claim
demands 0.025 and 250. -/
theorem clip_planes_claim_cex :
    (IndexJs.frameObject sampleBox sampleCamera sampleControls).1.near ≠
      specFrameDist sampleBox.getSize.x sampleBox.getSize.y sampleBox.getSize.z
        sampleCamera.fov ModelManager.defaultPadding / 100 ∧
    (IndexJs.frameObject sampleBox sampleCamera sampleControls).1.far ≠
      specFrameDist sampleBox.getSize.x sampleBox.getSize.y sampleBox.getSize.z
        sampleCamera.fov ModelManager.defaultPadding * 100 := by
  constructor
  · show sampleBox.getSize.length / 100 ≠ _
    rw [sampleSize_length, specDist_sample]
    norm_num
  · show sampleBox.getSize.length * 10 ≠ _
    rw [sampleSize_length, specDist_sample]
    norm_num

/-- Claim C4 (amended): `ModelManager.frameObject` sets near = d / 100 and
far = d * 100 from its computed distance d (so near < far whenever d > 0,
and both scale linearly with d), while the frameObject of src/index.js sets
near = size / 100 and far = size * 10 from the length of the size vector
(still near < far whenever that length is positive). -/
theorem clip_planes_formulas (box : Box3) (camera : Camera) (controls : Controls)
    (padding : ℝ) :
    ((ModelManager.frameObject box camera controls padding).1.near =
        ModelManager.frameDist (max (max box.getSize.x box.getSize.y) box.getSize.z)
          camera.fov padding / 100 ∧
      (ModelManager.frameObject box camera controls padding).1.far =
        ModelManager.frameDist (max (max box.getSize.x box.getSize.y) box.getSize.z)
          camera.fov padding * 100 ∧
      (0 < ModelManager.frameDist (max (max box.getSize.x box.getSize.y) box.getSize.z)
            camera.fov padding →
        (ModelManager.frameObject box camera controls padding).1.near <
          (ModelManager.frameObject box camera controls padding).1.far)) ∧
    ((IndexJs.frameObject box camera controls).1.near = box.getSize.length / 100 ∧
      (IndexJs.frameObject box camera controls).1.far = box.getSize.length * 10 ∧
      (0 < box.getSize.length →
        (IndexJs.frameObject box camera controls).1.near <
          (IndexJs.frameObject box camera controls).1.far)) := by
  refine ⟨⟨rfl, rfl, ?_⟩, ⟨rfl, rfl, ?_⟩⟩
  · intro hd
    show ModelManager.frameDist (max (max box.getSize.x box.getSize.y) box.getSize.z)
          camera.fov padding / 100 <
        ModelManager.frameDist (max (max box.getSize.x box.getSize.y) box.getSize.z)
          camera.fov padding * 100
    linarith
  · intro hl
    show box.getSize.length / 100 < box.getSize.length * 10
    linarith

/-! ## Claim C5 -/

/-- Claim C5: `ModelManager.frameObject` places the camera at the box
center plus the unit vector along the fixed direction (1, 0.6, 1) scaled by
the computed distance, and points the orbit target at the box center
(src/model-manager.js:77-83). -/
theorem frameObject_position_and_target (box : Box3) (camera : Camera)
    (controls : Controls) (padding : ℝ) :
    (ModelManager.frameObject box camera controls padding).1.position =
      box.getCenter.add ((Vec3.mk 1 0.6 1).multiplyScalar
        (ModelManager.frameDist (max (max box.getSize.x box.getSize.y) box.getSize.z)
            camera.fov padding / (Vec3.mk 1 0.6 1).length)) ∧
    (ModelManager.frameObject box camera controls padding).2.target = box.getCenter := by
  refine ⟨?_, rfl⟩
  show box.getCenter.add ((Vec3.mk 1 0.6 1).normalize.multiplyScalar
      (ModelManager.frameDist (max (max box.getSize.x box.getSize.y) box.getSize.z)
        camera.fov padding)) = _
  rw [dir_normalize_eq]
  simp only [Vec3.multiplyScalar, Vec3.add, Vec3.mk.injEq]
  refine ⟨by ring, by ring, by ring⟩

/-! ## Claim C7 -/

/-- Claim C7: for any field of view strictly between 0 and 180 degrees, the
computed framing distance is strictly increasing in the bounding size (for
any fixed padding at least 1) and strictly increasing in the padding (for
any fixed positive size). -/
theorem frameDist_strictly_increasing (fovDeg : ℝ) (h0 : 0 < fovDeg)
    (h1 : fovDeg < 180) :
    (∀ s1 s2 p : ℝ, 0 < s1 → s1 < s2 → 1 ≤ p →
        ModelManager.frameDist s1 fovDeg p < ModelManager.frameDist s2 fovDeg p) ∧
    (∀ s p1 p2 : ℝ, 0 < s → 1 ≤ p1 → p1 < p2 →
        ModelManager.frameDist s fovDeg p1 < ModelManager.frameDist s fovDeg p2) := by
  have ht := tanHalfFov_pos fovDeg h0 h1
  have h2t : 0 < 2 * Real.tan (fovDeg * Real.pi / 180 / 2) := by linarith
  constructor
  · intro s1 s2 p hs1 hs hp
    unfold ModelManager.frameDist
    have hp0 : (0 : ℝ) < p := lt_of_lt_of_le one_pos hp
    have hdiv : s1 / (2 * Real.tan (fovDeg * Real.pi / 180 / 2)) <
        s2 / (2 * Real.tan (fovDeg * Real.pi / 180 / 2)) :=
      (div_lt_div_iff_of_pos_right h2t).mpr hs
    exact mul_lt_mul_of_pos_right hdiv hp0
  · intro s p1 p2 hs hp1 hp12
    unfold ModelManager.frameDist
    have hq : 0 < s / (2 * Real.tan (fovDeg * Real.pi / 180 / 2)) := div_pos hs h2t
    exact mul_lt_mul_of_pos_left hp12 hq

/-- Witness for C7 at a 90-degree field of view with concrete sizes and
paddings. -/
theorem frameDist_strictly_increasing_witness :
    ModelManager.frameDist 1 90 1 < ModelManager.frameDist 2 90 1 ∧
    ModelManager.frameDist 1 90 1 < ModelManager.frameDist 1 90 2 := by
  have h := frameDist_strictly_increasing 90 (by norm_num) (by norm_num)
  exact ⟨h.1 1 2 1 (by norm_num) (by norm_num) le_rfl,
    h.2 1 1 2 (by norm_num) le_rfl (by norm_num)⟩

/-! ## Claim C8 -/

/-- Claim C8: framing is idempotent — invoking `ModelManager.frameObject`
again on the unchanged box with the camera and controls produced by the
first invocation yields exactly the same camera and controls (the code
reads only the box, the field of view and the padding, and writes neither
the box nor the field of view). In the real-valued model the two results
are equal exactly, which implies equality within any floating-point
tolerance. -/
theorem frameObject_idempotent (box : Box3) (camera : Camera)
    (controls : Controls) (padding : ℝ) :
    ModelManager.frameObject box (ModelManager.frameObject box camera controls padding).1
      (ModelManager.frameObject box camera controls padding).2 padding =
      ModelManager.frameObject box camera controls padding := rfl

/-! ## Claim C9 -/

/-- Claim C9: the outputs of `ModelManager.frameObject` depend only on the
box, the field of view and the padding: two invocations with cameras that
agree on the field of view but differ in prior position and clip planes,
and controls that differ in prior target, produce identical position, clip
planes and target. -/
theorem frameObject_ignores_prior_state (box : Box3) (padding : ℝ)
    (cam1 cam2 : Camera) (ctl1 ctl2 : Controls) (hfov : cam1.fov = cam2.fov) :
    (ModelManager.frameObject box cam1 ctl1 padding).1.position =
      (ModelManager.frameObject box cam2 ctl2 padding).1.position ∧
    (ModelManager.frameObject box cam1 ctl1 padding).1.near =
      (ModelManager.frameObject box cam2 ctl2 padding).1.near ∧
    (ModelManager.frameObject box cam1 ctl1 padding).1.far =
      (ModelManager.frameObject box cam2 ctl2 padding).1.far ∧
    (ModelManager.frameObject box cam1 ctl1 padding).2.target =
      (ModelManager.frameObject box cam2 ctl2 padding).2.target := by
  refine ⟨?_, ?_, ?_, rfl⟩ <;> simp only [ModelManager.frameObject, hfov]

/-- Witness for C9: two cameras with the same 90-degree field of view but
different prior positions, clip planes and targets get the same framed
position. -/
theorem frameObject_ignores_prior_state_witness :
    (ModelManager.frameObject sampleBox sampleCamera sampleControls
        ModelManager.defaultPadding).1.position =
      (ModelManager.frameObject sampleBox sampleCameraB sampleControlsB
        ModelManager.defaultPadding).1.position :=
  (frameObject_ignores_prior_state sampleBox ModelManager.defaultPadding
    sampleCamera sampleCameraB sampleControls sampleControlsB rfl).1

end Viewer
